import Mathlib

/-!
Verification of the quiz-generation core of the Lumus repository
(`src/api/generate-quiz.js`): the provider fallback chain in `handler`,
the Gemini response cleanup, the Hugging Face JSON extraction, and the
deterministic generators `generateFallbackQuiz` / `createStructuredQuiz`.

The JavaScript source is shallowly embedded: network outcomes of the two
real provider calls are oracle parameters, `JSON.parse` is modelled by an
executable parser over `List Char` (numeric literals are modelled as
integers, which covers every input exercised here), and the timestamp
`new Date().toISOString()` is an explicit `now : String` parameter.
-/

set_option autoImplicit false

namespace Lumus

/-- JSON values as produced by `JSON.parse`.  Object fields keep insertion
order; numeric literals are modelled as integers (all numeric literals in
the inputs considered here are integers). -/
inductive Json where
  | null : Json
  | bool : Bool → Json
  | num : Int → Json
  | str : String → Json
  | arr : List Json → Json
  | obj : List (String × Json) → Json

/-- First-match lookup in an object's field list, as JS property access. -/
def lookupField : List (String × Json) → String → Option Json
  | [], _ => none
  | (k', v') :: rest, k => if k' = k then some v' else lookupField rest k

/-- JS property assignment `o[k] = v`: overwrite in place if the key is
present (keeping its position), otherwise append. -/
def insertField : List (String × Json) → String → Json → List (String × Json)
  | [], k, v => [(k, v)]
  | (k', v') :: rest, k, v =>
    if k' = k then (k, v) :: rest else (k', v') :: insertField rest k v

/-- Field access on a JSON value (`none` on non-objects). -/
def Json.getField : Json → String → Option Json
  | .obj fs, k => lookupField fs k
  | _, _ => none

/-- The whitespace characters skipped by `JSON.parse` between tokens. -/
def isWsChar (c : Char) : Bool :=
  c = ' ' || c = '\n' || c = '\t' || c = '\r'

def skipWs (cs : List Char) : List Char := cs.dropWhile isWsChar

/-- Body of a JSON string literal, after the opening quote.  Returns the
decoded content and the remainder after the closing quote.  The common
escapes are handled; `\u` escapes do not occur in any input considered
here and make the literal unparseable, which is conservative. -/
def parseStringBody : Nat → List Char → Option (List Char × List Char)
  | 0, _ => none
  | _ + 1, [] => none
  | fuel + 1, c :: cs =>
    if c = '"' then some ([], cs)
    else if c = '\\' then
      match cs with
      | [] => none
      | e :: cs' =>
        let dec : Option Char :=
          if e = '"' then some '"'
          else if e = '\\' then some '\\'
          else if e = '/' then some '/'
          else if e = 'n' then some '\n'
          else if e = 't' then some '\t'
          else if e = 'r' then some '\r'
          else if e = 'b' then some (Char.ofNat 8)
          else if e = 'f' then some (Char.ofNat 12)
          else none
        match dec with
        | some d =>
          match parseStringBody fuel cs' with
          | some (s, rest) => some (d :: s, rest)
          | none => none
        | none => none
    else
      match parseStringBody fuel cs with
      | some (s, rest) => some (c :: s, rest)
      | none => none

def digitsToNat (ds : List Char) : Nat :=
  ds.foldl (fun a c => a * 10 + (c.toNat - 48)) 0

/-- Integer numeric literal: optional minus, digits, no leading zeros
(as the JSON grammar).  Fractions/exponents do not occur in the inputs
considered here and are not modelled. -/
def parseNumber (cs : List Char) : Option (Int × List Char) :=
  let neg : Bool := match cs with | '-' :: _ => true | _ => false
  let cs1 := match cs with | '-' :: r => r | _ => cs
  let ds := cs1.takeWhile Char.isDigit
  if ds.isEmpty then none
  else if ds.length > 1 && ds.headD '0' = '0' then none
  else
    let rest := cs1.drop ds.length
    let v : Int := Int.ofNat (digitsToNat ds)
    some (if neg then -v else v, rest)

/-- JS `JSON.parse` duplicate-key semantics: later occurrences overwrite
earlier ones, the key keeping its first position. -/
def mkObjFields (raw : List (String × Json)) : List (String × Json) :=
  raw.foldl (fun acc kv => insertField acc kv.1 kv.2) []

mutual

/-- One JSON value and the remaining input. -/
def parseValue : Nat → List Char → Option (Json × List Char)
  | 0, _ => none
  | fuel + 1, cs =>
    match skipWs cs with
    | 'n' :: 'u' :: 'l' :: 'l' :: rest => some (.null, rest)
    | 't' :: 'r' :: 'u' :: 'e' :: rest => some (.bool true, rest)
    | 'f' :: 'a' :: 'l' :: 's' :: 'e' :: rest => some (.bool false, rest)
    | '"' :: rest =>
      (match parseStringBody (rest.length + 1) rest with
       | some (s, rest') => some (.str (String.mk s), rest')
       | none => none)
    | '[' :: rest =>
      (match skipWs rest with
       | ']' :: rest' => some (.arr [], rest')
       | _ =>
         match parseElems fuel rest with
         | some (es, rest') => some (.arr es, rest')
         | none => none)
    | '{' :: rest =>
      (match skipWs rest with
       | '}' :: rest' => some (.obj [], rest')
       | _ =>
         match parseMembers fuel rest with
         | some (fs, rest') => some (.obj (mkObjFields fs), rest')
         | none => none)
    | other =>
      match parseNumber other with
      | some (n, rest) => some (.num n, rest)
      | none => none

/-- Comma-separated array elements up to the closing bracket. -/
def parseElems : Nat → List Char → Option (List Json × List Char)
  | 0, _ => none
  | fuel + 1, cs =>
    match parseValue fuel cs with
    | none => none
    | some (v, rest) =>
      match skipWs rest with
      | ',' :: rest' =>
        (match parseElems fuel rest' with
         | some (vs, rest'') => some (v :: vs, rest'')
         | none => none)
      | ']' :: rest' => some ([v], rest')
      | _ => none

/-- Comma-separated object members up to the closing brace, in source
order (duplicates included; see `mkObjFields`). -/
def parseMembers : Nat → List Char → Option (List (String × Json) × List Char)
  | 0, _ => none
  | fuel + 1, cs =>
    match skipWs cs with
    | '"' :: rest =>
      (match parseStringBody (rest.length + 1) rest with
       | none => none
       | some (k, rest1) =>
         match skipWs rest1 with
         | ':' :: rest2 =>
           (match parseValue fuel rest2 with
            | none => none
            | some (v, rest3) =>
              match skipWs rest3 with
              | ',' :: rest4 =>
                (match parseMembers fuel rest4 with
                 | some (fs, rest5) => some ((String.mk k, v) :: fs, rest5)
                 | none => none)
              | '}' :: rest4 => some ([(String.mk k, v)], rest4)
              | _ => none)
         | _ => none)
    | _ => none

end

/-- `JSON.parse` on a character list: one value, then only trailing
whitespace. -/
def parseJsonChars (cs : List Char) : Option Json :=
  match parseValue (cs.length + 1) cs with
  | some (v, rest) => if skipWs rest = [] then some v else none
  | none => none

/-- Does `pat` occur as an initial segment of `cs`? -/
def startsWithChars : List Char → List Char → Bool
  | [], _ => true
  | _ :: _, [] => false
  | p :: ps, c :: cs => p = c && startsWithChars ps cs

/-- `String.prototype.trim` (the whitespace forms that occur here). -/
def trimChars (cs : List Char) : List Char :=
  ((cs.dropWhile isWsChar).reverse.dropWhile isWsChar).reverse

/-- Does `pat` occur as a final segment of `cs`? -/
def endsWithChars (pat cs : List Char) : Bool :=
  startsWithChars pat.reverse cs.reverse

/-- The Gemini response cleanup of `generateQuizWithGemini`
(src/api/generate-quiz.js lines 139-146): trim, strip a leading
"```json" (exactly, case-sensitively), strip a trailing "```". -/
def cleanGeminiChars (cs : List Char) : List Char :=
  let t := trimChars cs
  let t := if startsWithChars ("```json".data) t then t.drop 7 else t
  if endsWithChars ("```".data) t then t.take (t.length - 3) else t

/-- Gemini-path normalization: cleanup then `JSON.parse`
(src/api/generate-quiz.js line 148). -/
def geminiNormalize (t : String) : Option Json :=
  parseJsonChars (cleanGeminiChars t.data)

/-- The Hugging Face extraction regex `/\x7b[\s\S]*\x7d/` applied by
`match` (src/api/generate-quiz.js line 195): greedy, so the match runs
from the first opening brace to the last closing brace of the whole
text, when the latter lies beyond the former. -/
def hfJsonSpan (cs : List Char) : Option (List Char) :=
  let pre := cs.takeWhile (fun c => !(c = '{'))
  if pre.length = cs.length then none
  else
    let rest := cs.drop pre.length
    let restR := rest.reverse
    let sufR := restR.takeWhile (fun c => !(c = '}'))
    if sufR.length = restR.length then none
    else some (restR.drop sufR.length).reverse

/-- A question object as built by the two local generator functions.
`options` is `none` exactly when the JS object has no `options` property
(true/false questions). -/
structure Question where
  question : String
  type : String
  options : Option (List String)
  answer : String
  explanation : String
  difficulty : String
deriving DecidableEq, Inhabited

/-- A quiz object as built by the two local generator functions. -/
structure Quiz where
  title : String
  total_questions : Int
  questions : List Question
  source : String
  generated_at : String
deriving DecidableEq

/-- Direct transcription of the difficulty ternary shared verbatim by
`generateFallbackQuiz` and `createStructuredQuiz`:
`i < numQuestions / 3 ? "easy" : i < 2 * numQuestions / 3 ? "medium" : "hard"`.
JS `/` is real division here (over the request-sized integers involved,
the float-64 comparisons agree exactly with the rational ones). -/
def fallbackDifficultyJS (i : Nat) (n : Int) : String :=
  if (i : ℚ) < (n : ℚ) / 3 then "easy"
  else if (i : ℚ) < 2 * (n : ℚ) / 3 then "medium"
  else "hard"

/-- The same ternary with the divisions cleared to integer comparisons
(`fallbackDifficulty_eq_js` proves the two agree); this executable form
is the one the generator definitions use. -/
def fallbackDifficulty (i : Nat) (n : Int) : String :=
  if 3 * (i : Int) < n then "easy"
  else if 3 * (i : Int) < 2 * n then "medium"
  else "hard"

/-- Loop body of `generateFallbackQuiz` (src/api/generate-quiz.js lines
252-279): even indices are multiple-choice, odd indices true/false. -/
def fallbackQuestion (topic : String) (n : Int) (i : Nat) : Question :=
  if i % 2 = 0 then
    { question := "What is a key aspect of " ++ topic ++ "?"
      type := "multiple-choice"
      options := some
        ["A) An important concept related to " ++ topic,
         "B) A secondary aspect of " ++ topic,
         "C) A minor detail about " ++ topic,
         "D) An unrelated topic"]
      answer := "A) An important concept related to " ++ topic
      explanation := "This question tests your understanding of " ++ topic ++ " fundamentals."
      difficulty := fallbackDifficulty i n }
  else
    { question := "True or False: " ++ topic ++ " is an important subject worth studying."
      type := "true-false"
      options := none
      answer := "True"
      explanation := topic ++ " is indeed an important subject that provides valuable knowledge."
      difficulty := fallbackDifficulty i n }

/-- `generateFallbackQuiz` (src/api/generate-quiz.js lines 248-288).  The
JS loop `for (let i = 0; i < numQuestions; i++)` runs `numQuestions`
times (zero times when `numQuestions <= 0`). -/
def generateFallbackQuiz (topic : String) (n : Int) (now : String) : Quiz :=
  { title := topic ++ " Quiz"
    total_questions := n
    questions := (List.range n.toNat).map (fallbackQuestion topic n)
    source := "Fallback quiz for " ++ topic
    generated_at := now }

/-- Loop body of `createStructuredQuiz` (src/api/generate-quiz.js lines
211-237). -/
def structuredQuestion (topic : String) (n : Int) (i : Nat) : Question :=
  if i % 2 = 0 then
    { question := "What is an important aspect of " ++ topic ++ "?"
      type := "multiple-choice"
      options := some
        ["A) A key concept in " ++ topic,
         "B) A secondary element of " ++ topic,
         "C) A minor detail about " ++ topic,
         "D) An unrelated topic"]
      answer := "A) A key concept in " ++ topic
      explanation := "This question tests your understanding of " ++ topic ++ " fundamentals."
      difficulty := fallbackDifficulty i n }
  else
    { question := "True or False: " ++ topic ++ " is a valuable subject to study."
      type := "true-false"
      options := none
      answer := "True"
      explanation := topic ++ " provides important knowledge and understanding."
      difficulty := fallbackDifficulty i n }

/-- `createStructuredQuiz` (src/api/generate-quiz.js lines 208-246). -/
def createStructuredQuiz (topic : String) (n : Int) (now : String) : Quiz :=
  { title := topic ++ " Quiz"
    total_questions := n
    questions := (List.range n.toNat).map (structuredQuestion topic n)
    source := "AI-generated quiz about " ++ topic
    generated_at := now }

/-- JSON serialization of a question object, with the JS literal's key
order; true/false questions carry no `options` property. -/
def Question.toJson (q : Question) : Json :=
  match q.options with
  | some opts =>
    .obj [("question", .str q.question), ("type", .str q.type),
          ("options", .arr (opts.map Json.str)), ("answer", .str q.answer),
          ("explanation", .str q.explanation), ("difficulty", .str q.difficulty)]
  | none =>
    .obj [("question", .str q.question), ("type", .str q.type),
          ("answer", .str q.answer), ("explanation", .str q.explanation),
          ("difficulty", .str q.difficulty)]

/-- JSON serialization of a quiz object, with the JS literal's key order. -/
def Quiz.toJson (q : Quiz) : Json :=
  .obj [("title", .str q.title), ("total_questions", .num q.total_questions),
        ("questions", .arr (q.questions.map Question.toJson)),
        ("source", .str q.source), ("generated_at", .str q.generated_at)]

/-- Observable outcome of the Gemini network call in
`generateQuizWithGemini`: transport failure (`!response.ok`), missing
candidates/content envelope, or a generated-text payload. -/
inductive GeminiNet where
  | httpFail : Nat → GeminiNet
  | badEnvelope : GeminiNet
  | ok : String → GeminiNet

/-- Observable outcome of the Hugging Face network call in
`generateQuizWithHuggingFace`: transport failure, or a response whose
`data[0]?.generated_text` is the given optional string. -/
inductive HFNet where
  | fail : Nat → HFNet
  | ok : Option String → HFNet

/-- `generateQuizWithGemini` (src/api/generate-quiz.js lines 72-155)
after its network call: on a text payload, clean the fences, `JSON.parse`,
then assign `quiz.source` and `quiz.generated_at`.  The property
assignments on a parsed array are dropped again by the response
serialization, and on a parsed primitive they throw (strict mode), which
the caller's catch turns into advancing the chain. -/
def generateQuizWithGemini (net : GeminiNet) (topic now : String) :
    Except String Json :=
  match net with
  | .httpFail s => .error ("API request failed: " ++ toString s)
  | .badEnvelope => .error "Invalid response from API"
  | .ok quizText =>
    match geminiNormalize quizText with
    | none => .error "Unexpected token in JSON"
    | some (.obj fs) =>
      .ok (.obj (insertField
        (insertField fs "source" (.str ("AI analysis of " ++ topic)))
        "generated_at" (.str now)))
    | some (.arr xs) => .ok (.arr xs)
    | some _ => .error "TypeError: Cannot create property"

/-- `generateQuizWithOpenAI` (src/api/generate-quiz.js lines 157-163):
an unconditional placeholder failure. -/
def generateQuizWithOpenAI (_topic : String) (_n : Int) : Except String Json :=
  .error "OpenAI API not configured"

/-- The Hugging Face prompt string (src/api/generate-quiz.js line 167);
it contains no brace, so the `quizText = ... || prompt` fallback never
matches the extraction regex. -/
def hfPrompt (topic : String) (n : Int) : String :=
  "Create a quiz about \"" ++ topic ++ "\" with " ++ toString n ++
  " questions. Use only multiple-choice and true/false questions. Format as JSON with title, total_questions, and questions array."

/-- `generateQuizWithHuggingFace` (src/api/generate-quiz.js lines
165-206) after its network call: take `generated_text` (or the prompt
when that is falsy), extract the greedy brace span and parse it, and
otherwise synthesize a structured quiz.  A parse failure is rethrown by
the adapter's catch. -/
def generateQuizWithHuggingFace (net : HFNet) (topic : String) (n : Int)
    (now : String) : Except String Json :=
  match net with
  | .fail s => .error ("Hugging Face API failed: Hugging Face API error: " ++ toString s)
  | .ok gtext =>
    let quizText :=
      match gtext with
      | some t => if t = "" then hfPrompt topic n else t
      | none => hfPrompt topic n
    match hfJsonSpan quizText.data with
    | some span =>
      (match parseJsonChars span with
       | some j => .ok j
       | none => .error "Hugging Face API failed: Unexpected token in JSON")
    | none => .ok (Quiz.toJson (createStructuredQuiz topic n now))

/-- The POST body fields read by `handler`.  `api_key` and `topic` are
absent or strings (`none`/empty both being falsy in JS); `num_questions`
defaults to 10 only when absent. -/
structure Req where
  api_key : Option String
  topic : Option String
  num_questions : Option Int

/-- JS truthiness test for an optional string field. -/
def jsFalsy : Option String → Bool
  | none => true
  | some s => s = ""

/-- Observable response of `handler` for a POST request: a 400 error
body or a 200 quiz body. -/
inductive HandlerResult where
  | badRequest : String → HandlerResult
  | okQuiz : Json → HandlerResult

/-- `handler` (src/api/generate-quiz.js lines 21-69) on a POST request:
boundary checks on `api_key` and `topic`, then the nested try/catch
chain Gemini, OpenAI, Hugging Face, local fallback. -/
def handler (req : Req) (gnet : GeminiNet) (hnet : HFNet) (now : String) :
    HandlerResult :=
  if jsFalsy req.api_key then .badRequest "API key is required"
  else if jsFalsy req.topic then .badRequest "Topic is required"
  else
    let topic := req.topic.getD ""
    let n := req.num_questions.getD 10
    match generateQuizWithGemini gnet topic now with
    | .ok quiz => .okQuiz quiz
    | .error _ =>
      match generateQuizWithOpenAI topic n with
      | .ok quiz => .okQuiz quiz
      | .error _ =>
        match generateQuizWithHuggingFace hnet topic n now with
        | .ok quiz => .okQuiz quiz
        | .error _ => .okQuiz (Quiz.toJson (generateFallbackQuiz topic n now))

/-- Did the handler answer 200 with a quiz body? -/
def HandlerResult.isOkQuiz : HandlerResult → Bool
  | .okQuiz _ => true
  | .badRequest _ => false

/-- The `source` field of the quiz body of a 200 response. -/
def HandlerResult.sourceField : HandlerResult → Option Json
  | .okQuiz j => j.getField "source"
  | .badRequest _ => none

/-- The `generated_at` field of the quiz body of a 200 response. -/
def HandlerResult.generatedAtField : HandlerResult → Option Json
  | .okQuiz j => j.getField "generated_at"
  | .badRequest _ => none

/-- Did the adapter call end in a thrown error? -/
def adapterFails : Except String Json → Bool
  | .error _ => true
  | .ok _ => false

/-- Modelled from the spec: the question-level constraints of the §3
data model / §4.1 `validate`, which has no implementation under `src/`
(the checkable field constraints: non-empty question and explanation,
recognized type, 4 string options containing the answer for
multiple-choice, no options and a literal True/False answer for
true-false, recognized difficulty). -/
def questionValid (j : Json) : Bool :=
  match j with
  | .obj fs =>
    (match lookupField fs "question" with
     | some (.str q) => decide (q ≠ "")
     | _ => false) &&
    (match lookupField fs "explanation" with
     | some (.str e) => decide (e ≠ "")
     | _ => false) &&
    (match lookupField fs "difficulty" with
     | some (.str d) => decide (d = "easy" ∨ d = "medium" ∨ d = "hard")
     | _ => false) &&
    (match lookupField fs "type" with
     | some (.str t) =>
       if t = "multiple-choice" then
         match lookupField fs "options", lookupField fs "answer" with
         | some (.arr opts), some (.str a) =>
           decide (opts.length = 4) &&
           opts.any (fun o => match o with | .str s => decide (s = a) | _ => false)
         | _, _ => false
       else if t = "true-false" then
         (match lookupField fs "answer" with
          | some (.str a) => decide (a = "True" ∨ a = "False")
          | _ => false) &&
         (match lookupField fs "options" with
          | none => true
          | some (.arr []) => true
          | some _ => false)
       else false
     | _ => false)
  | _ => false

/-- Modelled from the spec: the quiz-level §3 schema, which has no
implementation under `src/` — non-empty title, at least one question,
every question valid, and `total_questions` equal to the actual number
of questions. -/
def schemaValid (j : Json) : Bool :=
  match j with
  | .obj fs =>
    (match lookupField fs "title" with
     | some (.str t) => decide (t ≠ "")
     | _ => false) &&
    (match lookupField fs "questions" with
     | some (.arr qs) =>
       !qs.isEmpty && qs.all questionValid &&
       (match lookupField fs "total_questions" with
        | some (.num tq) => decide (tq = (qs.length : Int))
        | _ => false)
     | _ => false)
  | _ => false

/-- Modelled from the spec: the difficulty-band rule as the claim words
it — "band boundaries computed by floor division", extras into the hard
band — for comparison against `fallbackDifficulty`. -/
def specFloorDifficulty (i n : Nat) : String :=
  if i < n / 3 then "easy"
  else if i < 2 * (n / 3) then "medium"
  else "hard"

end Lumus

namespace Lumus

/-- The executable difficulty ternary agrees with the direct
transcription of the JS real-division comparisons. -/
theorem fallbackDifficulty_eq_js (i : Nat) (n : Int) :
    fallbackDifficultyJS i n = fallbackDifficulty i n := by
  have h1 : ((i : ℚ) < (n : ℚ) / 3) ↔ (3 * (i : Int) < n) := by
    rw [lt_div_iff₀ (by norm_num : (0 : ℚ) < 3)]
    rw [show ((i : ℚ) * 3) = ((3 * (i : Int) : Int) : ℚ) by push_cast; ring]
    exact Int.cast_lt
  have h2 : ((i : ℚ) < 2 * (n : ℚ) / 3) ↔ (3 * (i : Int) < 2 * n) := by
    rw [lt_div_iff₀ (by norm_num : (0 : ℚ) < 3)]
    rw [show ((i : ℚ) * 3) = ((3 * (i : Int) : Int) : ℚ) by push_cast; ring]
    rw [show (2 * (n : ℚ)) = ((2 * n : Int) : ℚ) by push_cast; ring]
    exact Int.cast_lt
  unfold fallbackDifficultyJS fallbackDifficulty
  rcases Classical.em (3 * (i : Int) < n) with h | h
  · rw [if_pos (h1.mpr h), if_pos h]
  · rw [if_neg (fun hq => h (h1.mp hq)), if_neg h]
    rcases Classical.em (3 * (i : Int) < 2 * n) with h' | h'
    · rw [if_pos (h2.mpr h'), if_pos h']
    · rw [if_neg (fun hq => h' (h2.mp hq)), if_neg h']

/-- Appending a non-empty string on the right gives a non-empty string. -/
theorem str_append_ne_right (a b : String) (h : b ≠ "") : a ++ b ≠ "" := by
  intro hc
  apply h
  cases a with | mk da =>
  cases b with | mk db =>
  have hdata : da ++ db = ([] : List Char) := congrArg String.data hc
  rw [(List.append_eq_nil.mp hdata).2]

/-- Looking up the key just assigned yields the assigned value. -/
theorem lookupField_insert_self (fs : List (String × Json)) (k : String) (v : Json) :
    lookupField (insertField fs k v) k = some v := by
  induction fs with
  | nil => simp [insertField, lookupField]
  | cons p rest ih =>
    obtain ⟨k', v'⟩ := p
    by_cases h : k' = k
    · simp [insertField, lookupField, h]
    · simp [insertField, lookupField, h, ih]

/-- Assigning one key leaves lookups of other keys unchanged. -/
theorem lookupField_insert_ne (fs : List (String × Json)) (k k2 : String) (v : Json)
    (h : k ≠ k2) : lookupField (insertField fs k v) k2 = lookupField fs k2 := by
  induction fs with
  | nil => simp [insertField, lookupField, h]
  | cons p rest ih =>
    obtain ⟨k', v'⟩ := p
    by_cases hk : k' = k
    · subst hk
      simp [insertField, lookupField, h]
    · by_cases hk2 : k' = k2
      · simp [insertField, lookupField, hk, hk2, Ne.symm h]
      · simp [insertField, lookupField, hk, hk2, ih]

/-- Indexing into the generated question list of either local generator. -/
theorem rangeMap_getD (f : Nat → Question) (m i : Nat) (d : Question) (h : i < m) :
    ((List.range m).map f).getD i d = f i := by
  rw [List.getD_eq_getElem?_getD, List.getElem?_map, List.getElem?_range h]
  rfl

/-- The difficulty ternary only ever produces the three band names. -/
theorem fallbackDifficulty_cases (i : Nat) (n : Int) :
    fallbackDifficulty i n = "easy" ∨ fallbackDifficulty i n = "medium" ∨
      fallbackDifficulty i n = "hard" := by
  unfold fallbackDifficulty
  split
  · exact Or.inl rfl
  split
  · exact Or.inr (Or.inl rfl)
  · exact Or.inr (Or.inr rfl)

/-- Every question built by the fallback loop body satisfies the
question-level schema constraints. -/
theorem fallbackQuestion_valid (tp : String) (n : Int) (i : Nat) :
    questionValid (Question.toJson (fallbackQuestion tp n i)) = true := by
  have hq : ("What is a key aspect of " ++ tp ++ "?" : String) ≠ "" :=
    str_append_ne_right _ _ (by decide)
  have hq2 : ("True or False: " ++ tp ++ " is an important subject worth studying." : String) ≠ "" :=
    str_append_ne_right _ _ (by decide)
  have he : ("This question tests your understanding of " ++ tp ++ " fundamentals." : String) ≠ "" :=
    str_append_ne_right _ _ (by decide)
  have he2 : (tp ++ " is indeed an important subject that provides valuable knowledge." : String) ≠ "" :=
    str_append_ne_right _ _ (by decide)
  rcases fallbackDifficulty_cases i n with hd | hd | hd <;>
    unfold fallbackQuestion <;>
    by_cases h : i % 2 = 0 <;>
    simp [h, Question.toJson, questionValid, lookupField, hd, hq, hq2, he, he2]

/-- Both loop-body branches carry the shared difficulty ternary. -/
theorem fallbackQuestion_difficulty (topic : String) (n : Int) (i : Nat) :
    (fallbackQuestion topic n i).difficulty = fallbackDifficulty i n := by
  unfold fallbackQuestion
  by_cases hp : i % 2 = 0 <;> simp [hp]

/-- The serialized fallback quiz passes the spec-modelled schema check
whenever the requested count is at least 1. -/
theorem fallback_quiz_schemaValid (topic now : String) (n : Int) (hn : 1 ≤ n) :
    schemaValid (Quiz.toJson (generateFallbackQuiz topic n now)) = true := by
  have htitle : (topic ++ " Quiz" : String) ≠ "" := str_append_ne_right _ _ (by decide)
  have hm : 1 ≤ n.toNat := by omega
  have hlen : n = (((List.range n.toNat).map (fallbackQuestion topic n)).length : Int) := by
    rw [List.length_map, List.length_range]
    omega
  unfold generateFallbackQuiz Quiz.toJson schemaValid
  simp only [lookupField, if_pos, List.map_map]
  simp only [String.reduceEq, ite_true, ite_false, reduceIte]
  simp [htitle, List.all_eq_true, Function.comp]
  exact ⟨⟨by omega, fun i _ => fallbackQuestion_valid topic n i⟩, by omega⟩

/-- With a truthy api_key and topic, a Gemini text payload whose cleaned
form parses to a JSON object short-circuits the chain: the handler
returns that object with `source` and `generated_at` assigned. -/
theorem handler_gemini_ok (ak tp : String) (nq : Option Int) (text : String)
    (fs : List (String × Json)) (hnet : HFNet) (now : String)
    (hak : ak ≠ "") (htp : tp ≠ "")
    (hparse : geminiNormalize text = some (.obj fs)) :
    handler ⟨some ak, some tp, nq⟩ (.ok text) hnet now =
      .okQuiz (.obj (insertField
        (insertField fs "source" (.str ("AI analysis of " ++ tp)))
        "generated_at" (.str now))) := by
  unfold handler
  simp [jsFalsy, hak, htp, generateQuizWithGemini, hparse]

/-- With a truthy api_key and topic, the handler always answers 200 with
a quiz body, whatever the provider outcomes. -/
theorem handler_isOkQuiz (ak tp now : String) (nq : Option Int)
    (gnet : GeminiNet) (hnet : HFNet) (hak : ak ≠ "") (htp : tp ≠ "") :
    (handler ⟨some ak, some tp, nq⟩ gnet hnet now).isOkQuiz = true := by
  unfold handler
  simp only [jsFalsy, hak, htp]
  cases hge : generateQuizWithGemini gnet tp now with
  | ok v => simp [hge, HandlerResult.isOkQuiz]
  | error e =>
    cases hhf : generateQuizWithHuggingFace hnet tp (nq.getD 10) now with
    | ok v => simp [hge, generateQuizWithOpenAI, hhf, HandlerResult.isOkQuiz]
    | error e2 => simp [hge, generateQuizWithOpenAI, hhf, HandlerResult.isOkQuiz]

/-- When the Gemini and Hugging Face attempts both fail (OpenAI always
does), the handler returns the serialized deterministic fallback quiz. -/
theorem handler_all_fail (ak tp now : String) (n : Int)
    (gnet : GeminiNet) (hnet : HFNet) (hak : ak ≠ "") (htp : tp ≠ "")
    (hg : adapterFails (generateQuizWithGemini gnet tp now) = true)
    (hh : adapterFails (generateQuizWithHuggingFace hnet tp n now) = true) :
    handler ⟨some ak, some tp, some n⟩ gnet hnet now =
      .okQuiz (Quiz.toJson (generateFallbackQuiz tp n now)) := by
  cases hge : generateQuizWithGemini gnet tp now with
  | ok v => rw [hge] at hg; simp [adapterFails] at hg
  | error e =>
    cases hhf : generateQuizWithHuggingFace hnet tp n now with
    | ok v => rw [hhf] at hh; simp [adapterFails] at hh
    | error e2 =>
      unfold handler
      simp [jsFalsy, hak, htp, generateQuizWithOpenAI, hge, hhf]

/-- When Gemini fails and the Hugging Face generated text is non-empty
but contains no brace span, the handler returns the serialized
structured quiz. -/
theorem handler_hf_structured (ak tp now t : String) (n : Int)
    (gnet : GeminiNet) (hak : ak ≠ "") (htp : tp ≠ "") (ht : t ≠ "")
    (hg : adapterFails (generateQuizWithGemini gnet tp now) = true)
    (hspan : hfJsonSpan t.data = none) :
    handler ⟨some ak, some tp, some n⟩ gnet (.ok (some t)) now =
      .okQuiz (Quiz.toJson (createStructuredQuiz tp n now)) := by
  cases hge : generateQuizWithGemini gnet tp now with
  | ok v => rw [hge] at hg; simp [adapterFails] at hg
  | error e =>
    unfold handler
    simp [jsFalsy, hak, htp, generateQuizWithOpenAI, hge,
      generateQuizWithHuggingFace, ht, hspan]

/-- On any serialized generator quiz, the `source` and `generated_at`
fields read back the record's values. -/
theorem quizToJson_fields (q : Quiz) :
    (Quiz.toJson q).getField "source" = some (.str q.source) ∧
    (Quiz.toJson q).getField "generated_at" = some (.str q.generated_at) := by
  constructor <;> simp [Quiz.toJson, Json.getField, lookupField]

/-- Claim C9 (confirmed): every multiple-choice question produced by the
deterministic fallback generator has an answer that is a literal member
of its own 4-entry options list, and every true-false question it
produces has answer exactly "True" or "False". -/
theorem c9_fallback_answer_in_options (topic now : String) (n : Int) (q : Question)
    (_hn : 1 ≤ n) (hq : q ∈ (generateFallbackQuiz topic n now).questions) :
    (q.type = "multiple-choice" →
      ∃ opts, q.options = some opts ∧ opts.length = 4 ∧ q.answer ∈ opts) ∧
    (q.type = "true-false" → q.answer = "True" ∨ q.answer = "False") := by
  unfold generateFallbackQuiz at hq
  simp only [List.mem_map, List.mem_range] at hq
  obtain ⟨i, hi, rfl⟩ := hq
  unfold fallbackQuestion
  by_cases h : i % 2 = 0 <;> simp [h]

/-- Instantiation of the C9 invariant at topic "T", count 4, index 0. -/
theorem c9_fallback_answer_in_options_witness :
    ((1 : Int) ≤ 4 ∧ fallbackQuestion "T" 4 0 ∈ (generateFallbackQuiz "T" 4 "t").questions) ∧
    (((fallbackQuestion "T" 4 0).type = "multiple-choice" →
        ∃ opts, (fallbackQuestion "T" 4 0).options = some opts ∧ opts.length = 4 ∧
          (fallbackQuestion "T" 4 0).answer ∈ opts) ∧
     ((fallbackQuestion "T" 4 0).type = "true-false" →
        (fallbackQuestion "T" 4 0).answer = "True" ∨ (fallbackQuestion "T" 4 0).answer = "False")) :=
  ⟨⟨by decide, by decide⟩,
   c9_fallback_answer_in_options "T" "t" 4 (fallbackQuestion "T" 4 0) (by decide) (by decide)⟩

/-- Claim C10 (confirmed): for count <= 0 the deterministic fallback
generator still returns a quiz object, with an empty questions array and
`total_questions` equal to the given count, so the schema requirement of
at least one question is not enforced at this boundary. -/
theorem c10_fallback_nonpositive_count (topic now : String) (n : Int) (hn : n ≤ 0) :
    (generateFallbackQuiz topic n now).questions = [] ∧
    (generateFallbackQuiz topic n now).total_questions = n ∧
    schemaValid (Quiz.toJson (generateFallbackQuiz topic n now)) = false := by
  have h0 : n.toNat = 0 := Int.toNat_of_nonpos hn
  refine ⟨?_, rfl, ?_⟩
  · unfold generateFallbackQuiz
    rw [h0]
    rfl
  · unfold generateFallbackQuiz Quiz.toJson schemaValid
    rw [h0]
    simp [lookupField]

/-- Instantiation of the C10 behaviour at topic "T", count 0. -/
theorem c10_fallback_nonpositive_count_witness :
    ((0 : Int) ≤ 0) ∧
    ((generateFallbackQuiz "T" 0 "t").questions = [] ∧
     (generateFallbackQuiz "T" 0 "t").total_questions = 0 ∧
     schemaValid (Quiz.toJson (generateFallbackQuiz "T" 0 "t")) = false) :=
  ⟨by decide, c10_fallback_nonpositive_count "T" "t" 0 (by decide)⟩

/-- Claim C7 counterexample: at count 10 the generated question at index
3 is in the easy band, whereas floor-division thirds (as the claim
states them) would place index 3 in the medium band. -/
theorem c7_difficulty_floor_counterexample :
    ((generateFallbackQuiz "Topic" 10 "t").questions.getD 3 default).difficulty = "easy" ∧
    specFloorDifficulty 3 10 = "medium" ∧
    ("easy" : String) ≠ "medium" :=
  ⟨by decide, by decide, by decide⟩

/-- Claim C7 (amended): difficulty is assigned by position with the
band boundaries of real (not floor) division — index i is easy when
i < count/3 (equivalently i < ceil(count/3)), medium when i < 2*count/3,
hard otherwise.  For count 9 this gives indices 0-2 easy, 3-5 medium,
6-8 hard as the claim's example says, but when the count is not
divisible by 3 the extra item(s) fall into the easy (and medium) bands
rather than hard: count 10 yields four easy questions. -/
theorem c7_amended_difficulty_bands (topic now : String) (n : Int) (i : Nat)
    (h : i < n.toNat) :
    ((generateFallbackQuiz topic n now).questions.getD i default).difficulty
      = (if i < (n.toNat + 2) / 3 then "easy"
         else if i < (2 * n.toNat + 2) / 3 then "medium" else "hard") ∧
    (generateFallbackQuiz "Photosynthesis" 9 "t").questions.map Question.difficulty
      = ["easy", "easy", "easy", "medium", "medium", "medium", "hard", "hard", "hard"] ∧
    (generateFallbackQuiz "Topic" 10 "t").questions.map Question.difficulty
      = ["easy", "easy", "easy", "easy", "medium", "medium", "medium", "hard", "hard", "hard"] := by
  refine ⟨?_, by decide, by decide⟩
  have hn0 : 0 ≤ n := by
    by_contra hc
    push_neg at hc
    have h0 : n.toNat = 0 := Int.toNat_of_nonpos (le_of_lt hc)
    omega
  have hnm : n = (n.toNat : Int) := (Int.toNat_of_nonneg hn0).symm
  unfold generateFallbackQuiz
  rw [rangeMap_getD _ _ _ _ h, fallbackQuestion_difficulty, hnm]
  simp only [Int.toNat_natCast]
  unfold fallbackDifficulty
  have e1 : (3 * (i : Int) < (n.toNat : Int)) ↔ (i < (n.toNat + 2) / 3) := by
    constructor <;> intro hx
    · have h3 : 3 * i < n.toNat := by exact_mod_cast hx
      omega
    · have h3 : 3 * i < n.toNat := by omega
      exact_mod_cast h3
  have e2 : (3 * (i : Int) < 2 * (n.toNat : Int)) ↔ (i < (2 * n.toNat + 2) / 3) := by
    constructor <;> intro hx
    · have h3 : 3 * i < 2 * n.toNat := by exact_mod_cast hx
      omega
    · have h3 : 3 * i < 2 * n.toNat := by omega
      exact_mod_cast h3
  by_cases h1 : 3 * (i : Int) < (n.toNat : Int)
  · rw [if_pos h1, if_pos (e1.mp h1)]
  · by_cases h2 : 3 * (i : Int) < 2 * (n.toNat : Int)
    · rw [if_neg h1, if_pos h2, if_neg (fun hx => h1 (e1.mpr hx)), if_pos (e2.mp h2)]
    · rw [if_neg h1, if_neg h2, if_neg (fun hx => h1 (e1.mpr hx)),
        if_neg (fun hx => h2 (e2.mpr hx))]

/-- Claim C1 counterexample: with a provider payload whose JSON does not
satisfy the §3 schema, the handler still returns it as the 200 quiz body
— no validation guards the provider path. -/
theorem c1_unvalidated_quiz_counterexample :
    handler ⟨some "k", some "T", some 1⟩ (.ok "\x7b\"a\":1\x7d") (.fail 500) "t"
      = .okQuiz (.obj [("a", .num 1), ("source", .str "AI analysis of T"),
          ("generated_at", .str "t")]) ∧
    schemaValid (.obj [("a", .num 1), ("source", .str "AI analysis of T"),
          ("generated_at", .str "t")]) = false :=
  ⟨rfl, rfl⟩

/-- Claim C1 (amended): for every non-empty api_key and topic and count,
the handler never surfaces a generation failure — every combination of
provider outcomes yields a 200 quiz response (the only errors reaching
the caller are the two boundary 400s) — and the quiz satisfies the §3
schema when it comes from the deterministic fallback with count ≥ 1;
provider-path quizzes, however, are returned without schema validation. -/
theorem c1_amended_never_fails (ak tp now : String) (n : Int)
    (gnet : GeminiNet) (hnet : HFNet)
    (hak : ak ≠ "") (htp : tp ≠ "") (hn : 1 ≤ n) :
    (handler ⟨some ak, some tp, some n⟩ gnet hnet now).isOkQuiz = true ∧
    schemaValid (Quiz.toJson (generateFallbackQuiz tp n now)) = true :=
  ⟨handler_isOkQuiz ak tp now (some n) gnet hnet hak htp,
   fallback_quiz_schemaValid tp now n hn⟩

/-- Instantiation of the C1 amended totality at topic "T", count 1, with
all providers failing. -/
theorem c1_amended_never_fails_witness :
    (("k" : String) ≠ "" ∧ ("T" : String) ≠ "" ∧ (1 : Int) ≤ 1) ∧
    ((handler ⟨some "k", some "T", some 1⟩ (.httpFail 500) (.fail 500) "t").isOkQuiz = true ∧
     schemaValid (Quiz.toJson (generateFallbackQuiz "T" 1 "t")) = true) :=
  ⟨⟨by decide, by decide, by decide⟩,
   c1_amended_never_fails "k" "T" "t" 1 (.httpFail 500) (.fail 500)
     (by decide) (by decide) (by decide)⟩

/-- Claim C2 counterexample: a provider declaring `total_questions: 7`
over a 5-element questions array is returned with `total_questions`
still 7 — no reconciliation happens. -/
theorem c2_no_reconciliation_counterexample :
    handler ⟨some "k", some "T", some 5⟩
        (.ok "\x7b\"total_questions\":7,\"questions\":[1,2,3,4,5]\x7d") (.fail 500) "t"
      = .okQuiz (.obj [("total_questions", .num 7),
          ("questions", .arr [.num 1, .num 2, .num 3, .num 4, .num 5]),
          ("source", .str "AI analysis of T"), ("generated_at", .str "t")]) ∧
    (Json.obj [("total_questions", .num 7),
          ("questions", .arr [.num 1, .num 2, .num 3, .num 4, .num 5]),
          ("source", .str "AI analysis of T"), ("generated_at", .str "t")]).getField
        "total_questions" = some (.num 7) ∧
    ((7 : Int) ≠ 5) :=
  ⟨rfl, rfl, by decide⟩

/-- Claim C2 (amended): the orchestrator performs no count
reconciliation: a provider-parsed quiz object is returned with its
`total_questions` field exactly as the provider declared it (only
`source` and `generated_at` being assigned on the Gemini path). -/
theorem c2_amended_no_reconciliation (ak tp now text : String) (nq : Option Int)
    (fs : List (String × Json)) (hnet : HFNet) (hak : ak ≠ "") (htp : tp ≠ "")
    (hparse : geminiNormalize text = some (.obj fs)) :
    handler ⟨some ak, some tp, nq⟩ (.ok text) hnet now
      = .okQuiz (.obj (insertField (insertField fs "source"
          (.str ("AI analysis of " ++ tp))) "generated_at" (.str now))) ∧
    lookupField (insertField (insertField fs "source"
          (.str ("AI analysis of " ++ tp))) "generated_at" (.str now)) "total_questions"
      = lookupField fs "total_questions" := by
  refine ⟨handler_gemini_ok ak tp nq text fs hnet now hak htp hparse, ?_⟩
  rw [lookupField_insert_ne _ _ _ _ (by decide), lookupField_insert_ne _ _ _ _ (by decide)]

/-- Instantiation of the C2 amended behaviour on the 7-versus-5 payload. -/
theorem c2_amended_no_reconciliation_witness :
    (("k" : String) ≠ "" ∧ ("T" : String) ≠ "" ∧
     geminiNormalize "\x7b\"total_questions\":7,\"questions\":[1,2,3,4,5]\x7d"
       = some (.obj [("total_questions", .num 7),
           ("questions", .arr [.num 1, .num 2, .num 3, .num 4, .num 5])])) ∧
    (handler ⟨some "k", some "T", some 5⟩
        (.ok "\x7b\"total_questions\":7,\"questions\":[1,2,3,4,5]\x7d") (.fail 500) "t"
      = .okQuiz (.obj (insertField (insertField
          [("total_questions", Json.num 7),
           ("questions", Json.arr [.num 1, .num 2, .num 3, .num 4, .num 5])]
          "source" (.str ("AI analysis of " ++ "T"))) "generated_at" (.str "t"))) ∧
     lookupField (insertField (insertField
          [("total_questions", Json.num 7),
           ("questions", Json.arr [.num 1, .num 2, .num 3, .num 4, .num 5])]
          "source" (.str ("AI analysis of " ++ "T"))) "generated_at" (.str "t"))
        "total_questions"
      = lookupField [("total_questions", Json.num 7),
           ("questions", Json.arr [.num 1, .num 2, .num 3, .num 4, .num 5])]
          "total_questions") :=
  ⟨⟨by decide, by decide, rfl⟩,
   c2_amended_no_reconciliation "k" "T" "t"
     "\x7b\"total_questions\":7,\"questions\":[1,2,3,4,5]\x7d" (some 5)
     [("total_questions", Json.num 7),
      ("questions", Json.arr [.num 1, .num 2, .num 3, .num 4, .num 5])]
     (.fail 500) (by decide) (by decide) rfl⟩

/-- Claim C3 counterexample: a candidate containing an essay-typed
question is accepted and returned as the 200 body instead of being
rejected with InvalidQuestionType and advancing the chain. -/
theorem c3_essay_accepted_counterexample :
    handler ⟨some "k", some "T", some 1⟩
        (.ok "\x7b\"questions\":[\x7b\"type\":\"essay\"\x7d]\x7d") (.fail 500) "t"
      = .okQuiz (.obj [("questions", .arr [.obj [("type", .str "essay")]]),
          ("source", .str "AI analysis of T"), ("generated_at", .str "t")]) ∧
    questionValid (.obj [("type", .str "essay")]) = false ∧
    schemaValid (.obj [("questions", .arr [.obj [("type", .str "essay")]]),
          ("source", .str "AI analysis of T"), ("generated_at", .str "t")]) = false :=
  ⟨rfl, rfl, rfl⟩

/-- Claim C3 (amended): no schema-validation step exists: any candidate
that parses to a JSON object is accepted and returned as-is, its
questions untouched — whatever their types or answers — and only
transport, envelope and JSON-parse failures advance the adapter chain. -/
theorem c3_amended_no_validation (ak tp now text : String) (nq : Option Int)
    (fs : List (String × Json)) (hnet : HFNet) (hak : ak ≠ "") (htp : tp ≠ "")
    (hparse : geminiNormalize text = some (.obj fs)) :
    handler ⟨some ak, some tp, nq⟩ (.ok text) hnet now
      = .okQuiz (.obj (insertField (insertField fs "source"
          (.str ("AI analysis of " ++ tp))) "generated_at" (.str now))) ∧
    lookupField (insertField (insertField fs "source"
          (.str ("AI analysis of " ++ tp))) "generated_at" (.str now)) "questions"
      = lookupField fs "questions" := by
  refine ⟨handler_gemini_ok ak tp nq text fs hnet now hak htp hparse, ?_⟩
  rw [lookupField_insert_ne _ _ _ _ (by decide), lookupField_insert_ne _ _ _ _ (by decide)]

/-- Instantiation of the C3 amended behaviour on the essay payload. -/
theorem c3_amended_no_validation_witness :
    (("k" : String) ≠ "" ∧ ("T" : String) ≠ "" ∧
     geminiNormalize "\x7b\"questions\":[\x7b\"type\":\"essay\"\x7d]\x7d"
       = some (.obj [("questions", .arr [.obj [("type", .str "essay")]])])) ∧
    (handler ⟨some "k", some "T", some 1⟩
        (.ok "\x7b\"questions\":[\x7b\"type\":\"essay\"\x7d]\x7d") (.fail 500) "t"
      = .okQuiz (.obj (insertField (insertField
          [("questions", Json.arr [.obj [("type", .str "essay")]])]
          "source" (.str ("AI analysis of " ++ "T"))) "generated_at" (.str "t"))) ∧
     lookupField (insertField (insertField
          [("questions", Json.arr [.obj [("type", .str "essay")]])]
          "source" (.str ("AI analysis of " ++ "T"))) "generated_at" (.str "t"))
        "questions"
      = lookupField [("questions", Json.arr [.obj [("type", .str "essay")]])]
          "questions") :=
  ⟨⟨by decide, by decide, rfl⟩,
   c3_amended_no_validation "k" "T" "t"
     "\x7b\"questions\":[\x7b\"type\":\"essay\"\x7d]\x7d" (some 1)
     [("questions", Json.arr [.obj [("type", .str "essay")]])]
     (.fail 500) (by decide) (by decide) rfl⟩

/-- Claim C4 counterexample: a request with count 0 is not rejected: the
chain runs and a 200 quiz (the empty fallback quiz) is returned instead
of InvalidRequest. -/
theorem c4_count_not_checked_counterexample :
    handler ⟨some "k", some "T", some 0⟩ (.httpFail 500) (.fail 500) "t"
      = .okQuiz (Quiz.toJson (generateFallbackQuiz "T" 0 "t")) ∧
    (handler ⟨some "k", some "T", some 0⟩ (.httpFail 500) (.fail 500) "t").isOkQuiz
      = true :=
  ⟨rfl, rfl⟩

/-- Claim C4 (amended): an empty (or missing) topic, like a missing or
empty api_key, is rejected with a 400 before any provider outcome can
matter, but a non-positive count is not rejected: such a request
proceeds through the chain and a 200 quiz is returned. -/
theorem c4_amended_boundary_checks (ak tp now : String) (n : Int)
    (gnet : GeminiNet) (hnet : HFNet)
    (hak : ak ≠ "") (htp : tp ≠ "") (_hn : n ≤ 0) :
    handler ⟨some ak, some "", some n⟩ gnet hnet now
      = .badRequest "Topic is required" ∧
    handler ⟨some ak, none, some n⟩ gnet hnet now
      = .badRequest "Topic is required" ∧
    handler ⟨none, some tp, some n⟩ gnet hnet now
      = .badRequest "API key is required" ∧
    (handler ⟨some ak, some tp, some n⟩ gnet hnet now).isOkQuiz = true := by
  refine ⟨?_, ?_, ?_, handler_isOkQuiz ak tp now (some n) gnet hnet hak htp⟩
  · unfold handler
    simp [jsFalsy, hak]
  · unfold handler
    simp [jsFalsy, hak]
  · unfold handler
    simp [jsFalsy]

/-- Instantiation of the C4 amended boundary behaviour at count 0. -/
theorem c4_amended_boundary_checks_witness :
    (("k" : String) ≠ "" ∧ ("T" : String) ≠ "" ∧ (0 : Int) ≤ 0) ∧
    (handler ⟨some "k", some "", some 0⟩ (.httpFail 500) (.fail 500) "t"
      = .badRequest "Topic is required" ∧
     handler ⟨some "k", none, some 0⟩ (.httpFail 500) (.fail 500) "t"
      = .badRequest "Topic is required" ∧
     handler ⟨none, some "T", some 0⟩ (.httpFail 500) (.fail 500) "t"
      = .badRequest "API key is required" ∧
     (handler ⟨some "k", some "T", some 0⟩ (.httpFail 500) (.fail 500) "t").isOkQuiz
      = true) :=
  ⟨⟨by decide, by decide, by decide⟩,
   c4_amended_boundary_checks "k" "T" "t" 0 (.httpFail 500) (.fail 500)
     (by decide) (by decide) (by decide)⟩

/-- Claim C5 counterexample: when Gemini fails and Hugging Face succeeds
by JSON extraction, the returned quiz carries no `source` at all, so the
source does not reflect the succeeding adapter's provenance. -/
theorem c5_source_not_set_counterexample :
    handler ⟨some "k", some "Tp", some 1⟩ (.httpFail 500)
        (.ok (some "\x7b\"title\":\"Q\"\x7d")) "t"
      = .okQuiz (.obj [("title", .str "Q")]) ∧
    (handler ⟨some "k", some "Tp", some 1⟩ (.httpFail 500)
        (.ok (some "\x7b\"title\":\"Q\"\x7d")) "t").sourceField = none :=
  ⟨rfl, rfl⟩

/-- Claim C5 (amended): adapters are tried strictly in the order Gemini,
OpenAI (an unconditional failure), Hugging Face, one attempt each with
no retry: when Gemini succeeds the result is independent of the Hugging
Face outcome and its source is "AI analysis of <topic>"; when every
adapter fails the deterministic fallback is returned with source
"Fallback quiz for <topic>"; and when Hugging Face succeeds via its
structured path the source is "AI-generated quiz about <topic>" — but on
its JSON-extraction path the source is whatever the provider supplied
(see the counterexample). -/
theorem c5_amended_chain_order (ak tp now text t : String) (n : Int)
    (gnet : GeminiNet) (hnet hnet2 : HFNet) (fs : List (String × Json))
    (hak : ak ≠ "") (htp : tp ≠ "") :
    (geminiNormalize text = some (.obj fs) →
      handler ⟨some ak, some tp, some n⟩ (.ok text) hnet now
        = handler ⟨some ak, some tp, some n⟩ (.ok text) hnet2 now) ∧
    (geminiNormalize text = some (.obj fs) →
      (handler ⟨some ak, some tp, some n⟩ (.ok text) hnet now).sourceField
        = some (.str ("AI analysis of " ++ tp))) ∧
    (adapterFails (generateQuizWithGemini gnet tp now) = true →
      adapterFails (generateQuizWithHuggingFace hnet tp n now) = true →
      handler ⟨some ak, some tp, some n⟩ gnet hnet now
        = .okQuiz (Quiz.toJson (generateFallbackQuiz tp n now)) ∧
      (handler ⟨some ak, some tp, some n⟩ gnet hnet now).sourceField
        = some (.str ("Fallback quiz for " ++ tp))) ∧
    (adapterFails (generateQuizWithGemini gnet tp now) = true →
      t ≠ "" → hfJsonSpan t.data = none →
      handler ⟨some ak, some tp, some n⟩ gnet (.ok (some t)) now
        = .okQuiz (Quiz.toJson (createStructuredQuiz tp n now)) ∧
      (handler ⟨some ak, some tp, some n⟩ gnet (.ok (some t)) now).sourceField
        = some (.str ("AI-generated quiz about " ++ tp))) := by
  refine ⟨?_, ?_, ?_, ?_⟩
  · intro hp
    rw [handler_gemini_ok ak tp (some n) text fs hnet now hak htp hp,
      handler_gemini_ok ak tp (some n) text fs hnet2 now hak htp hp]
  · intro hp
    rw [handler_gemini_ok ak tp (some n) text fs hnet now hak htp hp]
    show lookupField _ "source" = _
    rw [lookupField_insert_ne _ _ _ _ (by decide), lookupField_insert_self]
  · intro hg hh
    have heq := handler_all_fail ak tp now n gnet hnet hak htp hg hh
    refine ⟨heq, ?_⟩
    rw [heq]
    show (Quiz.toJson (generateFallbackQuiz tp n now)).getField "source" = _
    rw [(quizToJson_fields _).1]
    rfl
  · intro hg ht hspan
    have heq := handler_hf_structured ak tp now t n gnet hak htp ht hg hspan
    refine ⟨heq, ?_⟩
    rw [heq]
    show (Quiz.toJson (createStructuredQuiz tp n now)).getField "source" = _
    rw [(quizToJson_fields _).1]
    rfl

/-- Instantiation of the C5 amended chain behaviour with concrete
provider outcomes. -/
theorem c5_amended_chain_order_witness :
    (("k" : String) ≠ "" ∧ ("T" : String) ≠ "") ∧
    ((geminiNormalize "\x7b\x7d" = some (.obj []) →
      handler ⟨some "k", some "T", some 2⟩ (.ok "\x7b\x7d") (.fail 500) "t"
        = handler ⟨some "k", some "T", some 2⟩ (.ok "\x7b\x7d") (.ok none) "t") ∧
     (geminiNormalize "\x7b\x7d" = some (.obj []) →
      (handler ⟨some "k", some "T", some 2⟩ (.ok "\x7b\x7d") (.fail 500) "t").sourceField
        = some (.str ("AI analysis of " ++ "T"))) ∧
     (adapterFails (generateQuizWithGemini (.httpFail 500) "T" "t") = true →
      adapterFails (generateQuizWithHuggingFace (.fail 500) "T" 2 "t") = true →
      handler ⟨some "k", some "T", some 2⟩ (.httpFail 500) (.fail 500) "t"
        = .okQuiz (Quiz.toJson (generateFallbackQuiz "T" 2 "t")) ∧
      (handler ⟨some "k", some "T", some 2⟩ (.httpFail 500) (.fail 500) "t").sourceField
        = some (.str ("Fallback quiz for " ++ "T"))) ∧
     (adapterFails (generateQuizWithGemini (.httpFail 500) "T" "t") = true →
      ("no json here" : String) ≠ "" → hfJsonSpan ("no json here".data) = none →
      handler ⟨some "k", some "T", some 2⟩ (.httpFail 500) (.ok (some "no json here")) "t"
        = .okQuiz (Quiz.toJson (createStructuredQuiz "T" 2 "t")) ∧
      (handler ⟨some "k", some "T", some 2⟩ (.httpFail 500)
          (.ok (some "no json here")) "t").sourceField
        = some (.str ("AI-generated quiz about " ++ "T")))) :=
  ⟨⟨by decide, by decide⟩,
   c5_amended_chain_order "k" "T" "t" "\x7b\x7d" "no json here" 2
     (.httpFail 500) (.fail 500) (.ok none) [] (by decide) (by decide)⟩

/-- Claim C6 counterexample: a payload fenced with a bare leading "```"
(which the claim says normalization strips) does not parse on the Gemini
path: the cleanup leaves the leading fence, `JSON.parse` fails, and the
adapter errors instead of brace-scanning. -/
theorem c6_bare_fence_counterexample :
    geminiNormalize "```\n\x7b\"a\":1\x7d\n```" = none ∧
    generateQuizWithGemini (.ok "```\n\x7b\"a\":1\x7d\n```") "T" "t"
      = .error "Unexpected token in JSON" :=
  ⟨rfl, rfl⟩

/-- Claim C6 (amended): the two paths normalize differently.  The Gemini
path strips a leading "```json" exactly (case-sensitively — "```JSON"
and a bare "```" are not stripped) and a trailing "```", then parses,
with no brace scan on failure.  The Hugging Face path does no fence
stripping and extracts the greedy span from the first opening to the
last closing brace (not the first balanced span), and when no span
exists it synthesizes a structured quiz instead of failing.  The claim's
two examples do hold on their respective paths. -/
theorem c6_amended_normalization :
    geminiNormalize "```json\n\x7b\"a\":1\x7d\n```" = some (.obj [("a", .num 1)]) ∧
    geminiNormalize "```JSON\n\x7b\"a\":1\x7d\n```" = none ∧
    geminiNormalize "```\n\x7b\"a\":1\x7d\n```" = none ∧
    hfJsonSpan ("some text \x7b\"a\":1\x7d more text".data)
      = some ("\x7b\"a\":1\x7d".data) ∧
    parseJsonChars ("\x7b\"a\":1\x7d".data) = some (.obj [("a", .num 1)]) ∧
    hfJsonSpan ("x \x7b\"a\":1\x7d y \x7d z".data)
      = some ("\x7b\"a\":1\x7d y \x7d".data) ∧
    parseJsonChars ("\x7b\"a\":1\x7d y \x7d".data) = none ∧
    generateQuizWithHuggingFace (.ok (some "no json here")) "T" 3 "t"
      = .ok (Quiz.toJson (createStructuredQuiz "T" 3 "t")) :=
  ⟨rfl, rfl, rfl, rfl, rfl, rfl, rfl, rfl⟩

/-- Claim C8 counterexample: on the Hugging Face JSON-extraction path
the parsed provider object is returned unmodified: the quiz carries a
provider-controlled `source` and no `generated_at` at all. -/
theorem c8_provider_source_counterexample :
    handler ⟨some "k", some "Tp", some 1⟩ (.httpFail 500)
        (.ok (some "\x7b\"title\":\"T\",\"source\":\"EVIL\"\x7d")) "t"
      = .okQuiz (.obj [("title", .str "T"), ("source", .str "EVIL")]) ∧
    (Json.obj [("title", .str "T"), ("source", .str "EVIL")]).getField "generated_at"
      = none ∧
    (Json.obj [("title", .str "T"), ("source", .str "EVIL")]).getField "source"
      = some (.str "EVIL") ∧
    ("EVIL" : String) ≠ "AI analysis of Tp" ∧
    ("EVIL" : String) ≠ "Fallback quiz for Tp" :=
  ⟨rfl, rfl, rfl, by decide, by decide⟩

/-- Claim C8 (amended): the Gemini success path and both local generator
paths do set `source` and `generated_at` on the orchestrator side, but
the Hugging Face JSON-extraction path returns the parsed provider object
unmodified, so quizzes from that path may lack either field or carry
provider-controlled values (see the counterexample). -/
theorem c8_amended_provenance_fields (ak tp now text t : String) (n : Int)
    (gnet : GeminiNet) (hnet : HFNet) (fs : List (String × Json))
    (hak : ak ≠ "") (htp : tp ≠ "") :
    (geminiNormalize text = some (.obj fs) →
      (handler ⟨some ak, some tp, some n⟩ (.ok text) hnet now).sourceField
        = some (.str ("AI analysis of " ++ tp)) ∧
      (handler ⟨some ak, some tp, some n⟩ (.ok text) hnet now).generatedAtField
        = some (.str now)) ∧
    (adapterFails (generateQuizWithGemini gnet tp now) = true →
      adapterFails (generateQuizWithHuggingFace hnet tp n now) = true →
      (handler ⟨some ak, some tp, some n⟩ gnet hnet now).sourceField
        = some (.str ("Fallback quiz for " ++ tp)) ∧
      (handler ⟨some ak, some tp, some n⟩ gnet hnet now).generatedAtField
        = some (.str now)) ∧
    (adapterFails (generateQuizWithGemini gnet tp now) = true →
      t ≠ "" → hfJsonSpan t.data = none →
      (handler ⟨some ak, some tp, some n⟩ gnet (.ok (some t)) now).sourceField
        = some (.str ("AI-generated quiz about " ++ tp)) ∧
      (handler ⟨some ak, some tp, some n⟩ gnet (.ok (some t)) now).generatedAtField
        = some (.str now)) := by
  refine ⟨?_, ?_, ?_⟩
  · intro hp
    rw [handler_gemini_ok ak tp (some n) text fs hnet now hak htp hp]
    constructor
    · show lookupField _ "source" = _
      rw [lookupField_insert_ne _ _ _ _ (by decide), lookupField_insert_self]
    · show lookupField _ "generated_at" = _
      rw [lookupField_insert_self]
  · intro hg hh
    have heq := handler_all_fail ak tp now n gnet hnet hak htp hg hh
    rw [heq]
    constructor
    · show (Quiz.toJson (generateFallbackQuiz tp n now)).getField "source" = _
      rw [(quizToJson_fields _).1]
      rfl
    · show (Quiz.toJson (generateFallbackQuiz tp n now)).getField "generated_at" = _
      rw [(quizToJson_fields _).2]
      rfl
  · intro hg ht hspan
    have heq := handler_hf_structured ak tp now t n gnet hak htp ht hg hspan
    rw [heq]
    constructor
    · show (Quiz.toJson (createStructuredQuiz tp n now)).getField "source" = _
      rw [(quizToJson_fields _).1]
      rfl
    · show (Quiz.toJson (createStructuredQuiz tp n now)).getField "generated_at" = _
      rw [(quizToJson_fields _).2]
      rfl

/-- Instantiation of the C8 amended provenance fields with concrete
provider outcomes. -/
theorem c8_amended_provenance_fields_witness :
    (("k" : String) ≠ "" ∧ ("T" : String) ≠ "") ∧
    ((geminiNormalize "\x7b\x7d" = some (.obj []) →
      (handler ⟨some "k", some "T", some 2⟩ (.ok "\x7b\x7d") (.fail 500) "t").sourceField
        = some (.str ("AI analysis of " ++ "T")) ∧
      (handler ⟨some "k", some "T", some 2⟩ (.ok "\x7b\x7d") (.fail 500) "t").generatedAtField
        = some (.str "t")) ∧
     (adapterFails (generateQuizWithGemini (.badEnvelope) "T" "t") = true →
      adapterFails (generateQuizWithHuggingFace (.fail 500) "T" 2 "t") = true →
      (handler ⟨some "k", some "T", some 2⟩ (.badEnvelope) (.fail 500) "t").sourceField
        = some (.str ("Fallback quiz for " ++ "T")) ∧
      (handler ⟨some "k", some "T", some 2⟩ (.badEnvelope) (.fail 500) "t").generatedAtField
        = some (.str "t")) ∧
     (adapterFails (generateQuizWithGemini (.badEnvelope) "T" "t") = true →
      ("no json here" : String) ≠ "" → hfJsonSpan ("no json here".data) = none →
      (handler ⟨some "k", some "T", some 2⟩ (.badEnvelope)
          (.ok (some "no json here")) "t").sourceField
        = some (.str ("AI-generated quiz about " ++ "T")) ∧
      (handler ⟨some "k", some "T", some 2⟩ (.badEnvelope)
          (.ok (some "no json here")) "t").generatedAtField
        = some (.str "t"))) :=
  ⟨⟨by decide, by decide⟩,
   c8_amended_provenance_fields "k" "T" "t" "\x7b\x7d" "no json here" 2
     (.badEnvelope) (.fail 500) [] (by decide) (by decide)⟩

/-- Instantiation of the C7 amended band rule at count 9, index 4. -/
theorem c7_amended_difficulty_bands_witness :
    (4 < (9 : Int).toNat) ∧
    (((generateFallbackQuiz "T" 9 "t").questions.getD 4 default).difficulty
      = (if 4 < ((9 : Int).toNat + 2) / 3 then "easy"
         else if 4 < (2 * (9 : Int).toNat + 2) / 3 then "medium" else "hard") ∧
     (generateFallbackQuiz "Photosynthesis" 9 "t").questions.map Question.difficulty
      = ["easy", "easy", "easy", "medium", "medium", "medium", "hard", "hard", "hard"] ∧
     (generateFallbackQuiz "Topic" 10 "t").questions.map Question.difficulty
      = ["easy", "easy", "easy", "easy", "medium", "medium", "medium", "hard", "hard", "hard"]) :=
  ⟨by decide, c7_amended_difficulty_bands "T" "t" 9 4 (by decide)⟩

end Lumus
